import Mathlib

/-!
Verification of the overnight-holding stock screener (`src/main.py`).

The screener's core is `filter_stocks`: it computes a benchmark index
return once (`get_index_data`), then evaluates every symbol of the input
list against nine ordered, short-circuiting tests, appending passing
symbols to `selected` and incrementing exactly one rejection counter for
each failing symbol.  The data-provider calls (akshare) are modelled as
abstract per-symbol inputs: the daily-bar fetch and the intraday fetch may
raise (an `Except.error`), while `get_float_share_and_mv` catches its own
exceptions internally and the valuation inputs are modelled by the fields
it reads.  Machine floats are idealised as exact rationals; the places
where IEEE-754 artifacts (NaN/inf from a float division by zero) would
diverge from exact arithmetic are noted at the corresponding definitions.
-/

/-- Arithmetic mean of a list of rationals (`pandas Series.mean` /
`np.mean`).  On the empty list the rational convention `0 / 0 = 0`
applies; every use below is guarded by a length check.  -/
def mean (l : List ℚ) : ℚ := l.sum / (l.length : ℚ)

/-- Population variance (`np.std(...)**2`, ddof = 0): mean of the squared
deviations from the mean. -/
def popVar (l : List ℚ) : ℚ := mean (l.map (fun x => (x - mean l) ^ 2))

/-- Python truthiness of an optional number: `None` and `0` are falsy,
every other number is truthy.  Mirrors `if not float_share or not
total_mv` and `if total_mv and current_price` in the source. -/
def truthy : Option ℚ → Bool
  | none => false
  | some x => decide (x ≠ 0)

/-- One daily OHLCV bar.  The filter logic only reads the close and the
volume; the remaining columns fetched by `get_daily_data` are unused. -/
structure DailyBar where
  close : ℚ
  volume : ℚ
  deriving DecidableEq

/-- Inputs read by `get_float_share_and_mv`:
`raises` — any of its provider calls raises (caught internally);
`indicator_empty` — `ak.stock_a_indicator_lg` returned an empty frame;
`total_mv_col` — `df['total_mv'].iloc[0]` when the column resolves
(`none` when the column is absent);
`spot_price` — the symbol's `最新价` spot quote (`none` when the spot
frame has no row for the symbol). -/
structure ValuationFetch where
  raises : Bool
  indicator_empty : Bool
  total_mv_col : Option ℚ
  spot_price : Option ℚ
  deriving DecidableEq

/-- Embeds `get_float_share_and_mv` (src/main.py lines 26-58).  Returns
the pair `(float_share, total_mv)`; any internal failure or empty frame
yields `(None, None)`.  `total_mv` is the raw indicator value scaled by
`1e8`; `float_share` is estimated as 70% of `total_mv / current_price`
and is only produced when `total_mv` is truthy and the spot price is
truthy and positive. -/
def get_float_share_and_mv (f : ValuationFetch) : Option ℚ × Option ℚ :=
  if f.raises then (none, none)
  else if f.indicator_empty then (none, none)
  else
    let current_price := f.spot_price
    let total_mv := f.total_mv_col.map (fun x => x * 100000000)
    let float_share :=
      match total_mv, current_price with
      | some mv, some p =>
          if mv ≠ 0 ∧ p ≠ 0 ∧ 0 < p then some (mv / p * (7 / 10)) else none
      | _, _ => none
    (float_share, total_mv)

/-- Embeds `get_index_data` (src/main.py lines 70-85).  The fetch of the
benchmark daily series (either provider function) is an `Except`; the
whole body is wrapped in a `try` that returns `0` on any exception.  The
result is the last entry of `pct_change * 100`:
* provider failure → the exception handler returns `0`;
* empty frame → `iloc[-1]` raises `IndexError`, caught → `0`;
* a single row → `pct_change` of the only row is NaN, returned as-is —
  modelled as `none` (a non-finite float);
* zero previous close → the float division yields a non-finite value,
  modelled as `none`;
* otherwise `(latest_close - previous_close) / previous_close * 100`. -/
def get_index_data (fetch : Except Unit (List ℚ)) : Option ℚ :=
  match fetch with
  | .error _ => some 0
  | .ok closes =>
    if closes.length = 0 then some 0
    else if closes.length = 1 then none
    else
      let last := closes.getD (closes.length - 1) 0
      let prev := closes.getD (closes.length - 2) 0
      if prev = 0 then none
      else some ((last - prev) / prev * 100)

/-- The abstract data-provider slices one symbol's evaluation consumes:
the daily-bar fetch and the intraday fetch may raise (`Except.error`,
absorbed by the per-symbol `try/except`), the valuation inputs feed
`get_float_share_and_mv` (which never raises outward). -/
structure SymbolData where
  daily : Except Unit (List DailyBar)
  valuation : ValuationFetch
  intraday : Except Unit (List ℚ)

/-- The rejection reasons, in the source's stage order.  The constructor
names translate the Chinese dictionary keys of `rejected`:
`数据不足`, `无流通市值数据`, `涨幅不符`, `量比不足`, `换手率不符`,
`市值不符`, `成交量不稳定`, `布林带压力`, `尾盘表现不佳`, `其他错误`. -/
inductive Reason
  | insufficientHistory
  | noValuationData
  | priceMoveOutOfRange
  | volumeRatioTooLow
  | turnoverOutOfRange
  | marketValueOutOfRange
  | volumeUnstable
  | bandResistance
  | weakIntraday
  | evaluationError
  deriving DecidableEq

/-- Outcome of one symbol's evaluation. -/
inductive Verdict
  | passed
  | rejected (r : Reason)
  deriving DecidableEq

/-- Embeds `daily_df.iloc[-1]` — today's bar. -/
def todayBar (bars : List DailyBar) : DailyBar := bars.getD (bars.length - 1) ⟨0, 0⟩

/-- Embeds `daily_df.iloc[-2]` — the previous session's bar. -/
def prevBar (bars : List DailyBar) : DailyBar := bars.getD (bars.length - 2) ⟨0, 0⟩

/-- Embeds `(today['close'] - prev_day['close']) / prev_day['close'] * 100`. -/
def pct_change (bars : List DailyBar) : ℚ :=
  ((todayBar bars).close - (prevBar bars).close) / (prevBar bars).close * 100

/-- The volume column of the daily frame. -/
def volumes (bars : List DailyBar) : List ℚ := bars.map (fun b => b.volume)

/-- Embeds `daily_df['volume'].iloc[-6:-1].mean()` — mean of the five sessions
preceding today. -/
def avg_volume_5d (bars : List DailyBar) : ℚ :=
  mean (((volumes bars).drop ((volumes bars).length - 6)).take 5)

/-- Embeds `today['volume'] / avg_volume_5d if avg_volume_5d != 0 else 0`. -/
def volume_ratio (bars : List DailyBar) : ℚ :=
  if avg_volume_5d bars ≠ 0 then (todayBar bars).volume / avg_volume_5d bars else 0

/-- Embeds `(turnover_value / total_mv) * 100` with
`turnover_value = today['volume'] * today['close']`. -/
def est_turnover_rate (bars : List DailyBar) (total_mv : ℚ) : ℚ :=
  (todayBar bars).volume * (todayBar bars).close / total_mv * 100

/-- Embeds `total_mv * 0.7` — the float-market-value estimate. -/
def est_float_mv (total_mv : ℚ) : ℚ := total_mv * (7 / 10)

/-- Embeds `daily_df['volume'].iloc[-5:]` — the trailing five volumes, today
included. -/
def last5_volumes (bars : List DailyBar) : List ℚ :=
  (volumes bars).drop ((volumes bars).length - 5)

/-- Embeds `np.std(volumes) / np.mean(volumes) if np.mean(volumes) != 0 else 0`
— the coefficient of variation, real-valued because of the square root
in `np.std`. -/
noncomputable def coefficientOfVariation (vols : List ℚ) : ℝ :=
  if mean vols ≠ 0 then Real.sqrt ((popVar vols : ℚ) : ℝ) / ((mean vols : ℚ) : ℝ) else 0

/-- Decides `coefficientOfVariation vols > 0.5` exactly over ℚ:
with `m := mean`, `v := popVar` the real condition `√v / m > 1/2`
(with the `m = 0 → cv = 0` guard) holds iff `0 < m ∧ m² < 4·v`
(for `m < 0` the quotient is ≤ 0; for `m > 0` square both sides).
`cvFail_iff` below proves the equivalence. -/
def cvFail (vols : List ℚ) : Bool :=
  decide (0 < mean vols ∧ (mean vols) ^ 2 < 4 * popVar vols)

/-- The close column of the daily frame. -/
def closes (bars : List DailyBar) : List ℚ := bars.map (fun b => b.close)

/-- The trailing 20 entries — the window of `rolling(20)` at `iloc[-1]`. -/
def last20 (l : List ℚ) : List ℚ := l.drop (l.length - 20)

/-- Decides `resistance_distance < 3` exactly over ℚ, where
`resistance_distance = (upper - c) / c * 100`, `c = today['close']`, and
`upper = bb.bollinger_hband().iloc[-1]` is the `ta` Bollinger upper band:
SMA of the last 20 closes plus 2 population standard deviations
(`rolling(20).std(ddof=0)`) of the same window.  With `m` the window
mean, `v` the window variance, `s = √v` and `r = 103·c - 100·m` the real
condition `(m + 2·s - c)/c·100 < 3` rewrites to `200·s < r` for `c > 0`
and `200·s > r` for `c < 0`, each decided by sign analysis and squaring
(`bollingerFail_iff` below proves the equivalence for `c > 0`).  For
`c = 0` the exact-real convention `x / 0 = 0` gives `0 < 3`, i.e. fail
(the float code would produce a non-finite value there). -/
def bollingerFail (bars : List DailyBar) : Bool :=
  let w := last20 (closes bars)
  let m := mean w
  let v := popVar w
  let c := (todayBar bars).close
  let r := 103 * c - 100 * m
  if c = 0 then true
  else if 0 < c then decide (0 < r ∧ 40000 * v < r ^ 2)
  else decide (r < 0 ∨ r ^ 2 < 40000 * v)

/-- Embeds `(prices.iloc[-1] - prices.iloc[0]) / prices.iloc[0] * 100` — the
intraday session return over the retained ticks.  NOTE: for a zero first
price the rational convention `x / 0 = 0` applies here, whereas the
float code would produce a non-finite value or raise `ZeroDivisionError`
depending on the runtime numeric type — that corner is outside this
exact model. -/
def stock_pct (prices : List ℚ) : ℚ :=
  (prices.getD (prices.length - 1) 0 - prices.getD 0 0) / prices.getD 0 0 * 100

/-- Stage 1 (`数据不足`): `len(daily_df) < 20`. -/
def stage1_fail (bars : List DailyBar) : Bool := decide (bars.length < 20)

/-- Stage 2 (`无流通市值数据`): `not float_share or not total_mv`. -/
def stage2_fail (v : ValuationFetch) : Bool :=
  !(truthy (get_float_share_and_mv v).1) || !(truthy (get_float_share_and_mv v).2)

/-- Stage 3 (`涨幅不符`): `not (3 <= pct_change <= 5)`. -/
def stage3_fail (bars : List DailyBar) : Bool :=
  !(decide (3 ≤ pct_change bars ∧ pct_change bars ≤ 5))

/-- Stage 4 (`量比不足`): `volume_ratio < 1`. -/
def stage4_fail (bars : List DailyBar) : Bool := decide (volume_ratio bars < 1)

/-- Stage 5 (`换手率不符`): `not (5 <= est_turnover_rate <= 10)`.  The
`total_mv` in play is the second component of `get_float_share_and_mv`,
guaranteed truthy (hence `some` and nonzero) by stage 2. -/
def stage5_fail (bars : List DailyBar) (v : ValuationFetch) : Bool :=
  let total_mv := ((get_float_share_and_mv v).2).getD 0
  !(decide (5 ≤ est_turnover_rate bars total_mv ∧ est_turnover_rate bars total_mv ≤ 10))

/-- Stage 6 (`市值不符`): `not (50e8 <= est_float_mv <= 200e8)`. -/
def stage6_fail (v : ValuationFetch) : Bool :=
  let total_mv := ((get_float_share_and_mv v).2).getD 0
  !(decide (5000000000 ≤ est_float_mv total_mv ∧ est_float_mv total_mv ≤ 20000000000))

/-- Stage 7 (`成交量不稳定`): `cv > 0.5` on the trailing five volumes. -/
def stage7_fail (bars : List DailyBar) : Bool := cvFail (last5_volumes bars)

/-- Stage 8 (`布林带压力`): `resistance_distance < 3`. -/
def stage8_fail (bars : List DailyBar) : Bool := bollingerFail bars

/-- Stage 9 (`尾盘表现不佳`): the intraday frame is empty, or
`today['close'] < vwap or stock_pct < index_pct + 1`. -/
def stage9_fail (ip : ℚ) (bars : List DailyBar) (prices : List ℚ) : Bool :=
  prices.isEmpty ||
    decide ((todayBar bars).close < mean prices ∨ stock_pct prices < ip + 1)

/-- One symbol's pass through the body of the `for` loop of
`filter_stocks` (src/main.py lines 116-207): the nine tests in source
order, each `continue` becoming an early rejection; an exception from
the daily fetch or from the intraday fetch is absorbed by the
surrounding `try/except` into `其他错误` (`evaluationError`). -/
def evalSymbol (ip : ℚ) (d : SymbolData) : Verdict :=
  match d.daily with
  | .error _ => .rejected .evaluationError
  | .ok bars =>
    if stage1_fail bars then .rejected .insufficientHistory
    else if stage2_fail d.valuation then .rejected .noValuationData
    else if stage3_fail bars then .rejected .priceMoveOutOfRange
    else if stage4_fail bars then .rejected .volumeRatioTooLow
    else if stage5_fail bars d.valuation then .rejected .turnoverOutOfRange
    else if stage6_fail d.valuation then .rejected .marketValueOutOfRange
    else if stage7_fail bars then .rejected .volumeUnstable
    else if stage8_fail bars then .rejected .bandResistance
    else
      match d.intraday with
      | .error _ => .rejected .evaluationError
      | .ok prices =>
        if stage9_fail ip bars prices then .rejected .weakIntraday
        else .passed

/-- The `rejected` dictionary of `filter_stocks`: one counter per
reason, all initialised to 0. -/
structure Rejected where
  insufficientHistory : ℕ
  noValuationData : ℕ
  priceMoveOutOfRange : ℕ
  volumeRatioTooLow : ℕ
  turnoverOutOfRange : ℕ
  marketValueOutOfRange : ℕ
  volumeUnstable : ℕ
  bandResistance : ℕ
  weakIntraday : ℕ
  evaluationError : ℕ
  deriving DecidableEq

/-- All counters zero. -/
def Rejected.init : Rejected := ⟨0, 0, 0, 0, 0, 0, 0, 0, 0, 0⟩

/-- Embeds `rejected[reason] += 1`. -/
def Rejected.bump (c : Rejected) : Reason → Rejected
  | .insufficientHistory => { c with insufficientHistory := c.insufficientHistory + 1 }
  | .noValuationData => { c with noValuationData := c.noValuationData + 1 }
  | .priceMoveOutOfRange => { c with priceMoveOutOfRange := c.priceMoveOutOfRange + 1 }
  | .volumeRatioTooLow => { c with volumeRatioTooLow := c.volumeRatioTooLow + 1 }
  | .turnoverOutOfRange => { c with turnoverOutOfRange := c.turnoverOutOfRange + 1 }
  | .marketValueOutOfRange => { c with marketValueOutOfRange := c.marketValueOutOfRange + 1 }
  | .volumeUnstable => { c with volumeUnstable := c.volumeUnstable + 1 }
  | .bandResistance => { c with bandResistance := c.bandResistance + 1 }
  | .weakIntraday => { c with weakIntraday := c.weakIntraday + 1 }
  | .evaluationError => { c with evaluationError := c.evaluationError + 1 }

/-- Embeds `sum(rejected.values())`. -/
def Rejected.total (c : Rejected) : ℕ :=
  c.insufficientHistory + c.noValuationData + c.priceMoveOutOfRange +
    c.volumeRatioTooLow + c.turnoverOutOfRange + c.marketValueOutOfRange +
    c.volumeUnstable + c.bandResistance + c.weakIntraday + c.evaluationError

/-- Pointwise sum of two counter dictionaries. -/
def Rejected.add (a b : Rejected) : Rejected :=
  ⟨a.insufficientHistory + b.insufficientHistory,
   a.noValuationData + b.noValuationData,
   a.priceMoveOutOfRange + b.priceMoveOutOfRange,
   a.volumeRatioTooLow + b.volumeRatioTooLow,
   a.turnoverOutOfRange + b.turnoverOutOfRange,
   a.marketValueOutOfRange + b.marketValueOutOfRange,
   a.volumeUnstable + b.volumeUnstable,
   a.bandResistance + b.bandResistance,
   a.weakIntraday + b.weakIntraday,
   a.evaluationError + b.evaluationError⟩

/-- The run's accumulated state, and the spec's RunResult shape:
selected symbols in input order, the rejection counters, and the number
of symbols processed so far. -/
structure RunResult where
  selected : List String
  rejected : Rejected
  totalProcessed : ℕ
  deriving DecidableEq

/-- One iteration of the `for symbol in symbol_list` loop:
`processed_count += 1`, then either `selected.append(symbol)` or
`rejected[reason] += 1`. -/
def runStep (ip : ℚ) (provider : String → SymbolData) (acc : RunResult) (sym : String) :
    RunResult :=
  match evalSymbol ip (provider sym) with
  | .passed => ⟨acc.selected ++ [sym], acc.rejected, acc.totalProcessed + 1⟩
  | .rejected r => ⟨acc.selected, acc.rejected.bump r, acc.totalProcessed + 1⟩

/-- The full internal state of `filter_stocks` after the loop
(src/main.py lines 89-217), with the benchmark return `ip` passed in
(the source computes it up front via `get_index_data`). -/
def filter_stocks_full (ip : ℚ) (provider : String → SymbolData)
    (symbol_list : List String) : RunResult :=
  symbol_list.foldl (runStep ip provider) ⟨[], Rejected.init, 0⟩

/-- The return value of `filter_stocks` (src/main.py line 219): the source
prints the statistics and returns only `selected`. -/
def filter_stocks (ip : ℚ) (provider : String → SymbolData)
    (symbol_list : List String) : List String :=
  (filter_stocks_full ip provider symbol_list).selected

/-! Concrete inputs used to instantiate the theorems below. -/

/-- A valuation fetch that resolves: indicator value 100 (i.e. a total
market value of 100e8) and spot price 10. -/
def vOk : ValuationFetch := ⟨false, false, some 100, some 10⟩

/-- A valuation fetch with both fields unresolved. -/
def vNone : ValuationFetch := ⟨false, false, none, none⟩

/-- A valuation fetch resolving to a negative indicator value. -/
def vNeg : ValuationFetch := ⟨false, false, some (-1), some 1⟩

/-- Twenty daily bars that pass stages 1-8 with `vOk`: eighteen sessions
closing at 110, then 100, then today at 104 (price move 4%, flat volume,
turnover estimate 5.2%, volume CV 0, Bollinger upper band ≈ 114.2). -/
def bars20 : List DailyBar :=
  List.replicate 18 ⟨110, 5000000⟩ ++ [⟨100, 5000000⟩, ⟨104, 5000000⟩]

/-- Like `bars20` but with today closing at 103 — a price move of
exactly 3.00%. -/
def barsPct3 : List DailyBar :=
  List.replicate 18 ⟨110, 5000000⟩ ++ [⟨100, 5000000⟩, ⟨103, 5000000⟩]

/-- Twenty bars passing stages 1-3 whose volumes are all zero, so the
five-prior-session mean volume is exactly 0. -/
def barsZeroVol : List DailyBar :=
  List.replicate 18 ⟨100, 0⟩ ++ [⟨100, 0⟩, ⟨104, 0⟩]

/-- Twenty bars passing stages 1-7 but failing stage 8: the 20-session
mean close is 96.6 with std ≈ 1.91, so the upper band ≈ 100.4 sits less
than 3% above today's close of 104. -/
def bars8 : List DailyBar :=
  List.replicate 18 ⟨96, 5000000⟩ ++ [⟨100, 5000000⟩, ⟨104, 5000000⟩]

/-- Twenty flat bars (every close 100): stage 3 rejects them because the
price move is 0%. -/
def barsC4 : List DailyBar := List.replicate 20 ⟨100, 0⟩

/-- A provider whose every symbol yields an empty daily series, hence
`InsufficientHistory` for each symbol. -/
def providerEmpty : String → SymbolData := fun _ => ⟨.ok [], vNone, .ok []⟩

/-! Helper lemmas about the run's bookkeeping. -/

theorem Rejected.bump_total (c : Rejected) (r : Reason) :
    (c.bump r).total = c.total + 1 := by
  cases r <;> simp [Rejected.bump, Rejected.total] <;> omega

theorem runStep_totalProcessed (ip : ℚ) (p : String → SymbolData) (acc : RunResult)
    (s : String) : (runStep ip p acc s).totalProcessed = acc.totalProcessed + 1 := by
  cases h : evalSymbol ip (p s) <;> simp [runStep, h]

theorem runStep_measure (ip : ℚ) (p : String → SymbolData) (acc : RunResult) (s : String) :
    (runStep ip p acc s).selected.length + (runStep ip p acc s).rejected.total
      = acc.selected.length + acc.rejected.total + 1 := by
  cases h : evalSymbol ip (p s) <;> simp [runStep, h, Rejected.bump_total] <;> omega

theorem run_counts (ip : ℚ) (p : String → SymbolData) :
    ∀ (syms : List String) (acc : RunResult),
      (List.foldl (runStep ip p) acc syms).totalProcessed = acc.totalProcessed + syms.length
      ∧ (List.foldl (runStep ip p) acc syms).selected.length
          + (List.foldl (runStep ip p) acc syms).rejected.total
        = acc.selected.length + acc.rejected.total + syms.length := by
  intro syms
  induction syms with
  | nil => intro acc; simp
  | cons s rest ih =>
    intro acc
    simp only [List.foldl_cons, List.length_cons]
    have h := ih (runStep ip p acc s)
    refine ⟨?_, ?_⟩
    · rw [h.1, runStep_totalProcessed]; omega
    · rw [h.2, runStep_measure]; omega

theorem run_selected (ip : ℚ) (p : String → SymbolData) :
    ∀ (syms : List String) (acc : RunResult),
      (List.foldl (runStep ip p) acc syms).selected
        = acc.selected
            ++ syms.filter (fun s => decide (evalSymbol ip (p s) = Verdict.passed)) := by
  intro syms
  induction syms with
  | nil => intro acc; simp
  | cons s rest ih =>
    intro acc
    simp only [List.foldl_cons]
    rw [ih]
    cases h : evalSymbol ip (p s) with
    | passed => simp [runStep, h, List.filter_cons]
    | rejected r => simp [runStep, h, List.filter_cons]

theorem Rejected.add_init_left (b : Rejected) : Rejected.init.add b = b := by
  cases b; simp [Rejected.add, Rejected.init]

theorem Rejected.add_init_right (a : Rejected) : a.add Rejected.init = a := by
  cases a; simp [Rejected.add, Rejected.init]

theorem Rejected.add_assoc (a b c : Rejected) : (a.add b).add c = a.add (b.add c) := by
  cases a; cases b; cases c; simp [Rejected.add, Nat.add_assoc]

theorem Rejected.bump_eq_add (a : Rejected) (r : Reason) :
    a.bump r = a.add (Rejected.init.bump r) := by
  cases r <;> cases a <;> simp [Rejected.bump, Rejected.add, Rejected.init]

theorem run_rejected (ip : ℚ) (p : String → SymbolData) :
    ∀ (syms : List String) (acc : RunResult),
      (List.foldl (runStep ip p) acc syms).rejected
        = acc.rejected.add (filter_stocks_full ip p syms).rejected := by
  intro syms
  induction syms with
  | nil => intro acc; simp [filter_stocks_full, Rejected.add_init_right]
  | cons s rest ih =>
    intro acc
    have hfull : filter_stocks_full ip p (s :: rest)
        = List.foldl (runStep ip p) (runStep ip p ⟨[], Rejected.init, 0⟩ s) rest := rfl
    simp only [List.foldl_cons]
    rw [ih (runStep ip p acc s), hfull, ih (runStep ip p ⟨[], Rejected.init, 0⟩ s)]
    cases h : evalSymbol ip (p s) with
    | passed => simp [runStep, h, Rejected.add_init_left]
    | rejected r =>
      simp only [runStep, h]
      rw [Rejected.bump_eq_add acc.rejected r, Rejected.add_assoc]

/-- C1: for every input list of symbols, the screening run's accounting
is exact — the number of symbols processed equals the number of selected
symbols plus the sum of all rejection-reason counts (each loop iteration
puts its symbol into exactly one bucket), and the processed count equals
the input length. -/
theorem filter_stocks_accounting (ip : ℚ) (p : String → SymbolData) (syms : List String) :
    (filter_stocks_full ip p syms).totalProcessed
        = (filter_stocks_full ip p syms).selected.length
          + (filter_stocks_full ip p syms).rejected.total
  ∧ (filter_stocks_full ip p syms).totalProcessed = syms.length := by
  have h := run_counts ip p syms ⟨[], Rejected.init, 0⟩
  have h1 := h.1
  have h2 := h.2
  have e0 : Rejected.init.total = 0 := rfl
  simp only [filter_stocks_full]
  simp only [List.length_nil, e0] at h1 h2
  omega

/-- C2: the nine tests run in the fixed source order; a symbol failing
stage k is rejected with exactly the stage-k reason, and nothing of a
later stage affects that verdict.  Each clause quantifies over every
valuation input and every intraday fetch outcome (including a raising
one, `Except.error`), so a stage-k failure yields the stage-k reason no
matter what the later stages' data would have been — in particular the
stage-9 intraday fetch is never consulted for k ≤ 8, and the stage-2
valuation fetch is irrelevant when stage 1 fails. -/
theorem evaluator_short_circuit (ip : ℚ) (bars : List DailyBar) (v : ValuationFetch)
    (intr : Except Unit (List ℚ)) :
    (stage1_fail bars = true →
        evalSymbol ip ⟨.ok bars, v, intr⟩ = .rejected .insufficientHistory)
  ∧ (stage1_fail bars = false → stage2_fail v = true →
        evalSymbol ip ⟨.ok bars, v, intr⟩ = .rejected .noValuationData)
  ∧ (stage1_fail bars = false → stage2_fail v = false → stage3_fail bars = true →
        evalSymbol ip ⟨.ok bars, v, intr⟩ = .rejected .priceMoveOutOfRange)
  ∧ (stage1_fail bars = false → stage2_fail v = false → stage3_fail bars = false →
      stage4_fail bars = true →
        evalSymbol ip ⟨.ok bars, v, intr⟩ = .rejected .volumeRatioTooLow)
  ∧ (stage1_fail bars = false → stage2_fail v = false → stage3_fail bars = false →
      stage4_fail bars = false → stage5_fail bars v = true →
        evalSymbol ip ⟨.ok bars, v, intr⟩ = .rejected .turnoverOutOfRange)
  ∧ (stage1_fail bars = false → stage2_fail v = false → stage3_fail bars = false →
      stage4_fail bars = false → stage5_fail bars v = false → stage6_fail v = true →
        evalSymbol ip ⟨.ok bars, v, intr⟩ = .rejected .marketValueOutOfRange)
  ∧ (stage1_fail bars = false → stage2_fail v = false → stage3_fail bars = false →
      stage4_fail bars = false → stage5_fail bars v = false → stage6_fail v = false →
      stage7_fail bars = true →
        evalSymbol ip ⟨.ok bars, v, intr⟩ = .rejected .volumeUnstable)
  ∧ (stage1_fail bars = false → stage2_fail v = false → stage3_fail bars = false →
      stage4_fail bars = false → stage5_fail bars v = false → stage6_fail v = false →
      stage7_fail bars = false → stage8_fail bars = true →
        evalSymbol ip ⟨.ok bars, v, intr⟩ = .rejected .bandResistance)
  ∧ (stage1_fail bars = false → stage2_fail v = false → stage3_fail bars = false →
      stage4_fail bars = false → stage5_fail bars v = false → stage6_fail v = false →
      stage7_fail bars = false → stage8_fail bars = false →
      ∀ prices, intr = .ok prices → stage9_fail ip bars prices = true →
        evalSymbol ip ⟨.ok bars, v, intr⟩ = .rejected .weakIntraday) := by
  refine ⟨?_, ?_, ?_, ?_, ?_, ?_, ?_, ?_, ?_⟩
  · intro h1; simp [evalSymbol, h1]
  · intro h1 h2; simp [evalSymbol, h1, h2]
  · intro h1 h2 h3; simp [evalSymbol, h1, h2, h3]
  · intro h1 h2 h3 h4; simp [evalSymbol, h1, h2, h3, h4]
  · intro h1 h2 h3 h4 h5; simp [evalSymbol, h1, h2, h3, h4, h5]
  · intro h1 h2 h3 h4 h5 h6; simp [evalSymbol, h1, h2, h3, h4, h5, h6]
  · intro h1 h2 h3 h4 h5 h6 h7; simp [evalSymbol, h1, h2, h3, h4, h5, h6, h7]
  · intro h1 h2 h3 h4 h5 h6 h7 h8; simp [evalSymbol, h1, h2, h3, h4, h5, h6, h7, h8]
  · intro h1 h2 h3 h4 h5 h6 h7 h8 prices hpr h9
    subst hpr
    simp [evalSymbol, h1, h2, h3, h4, h5, h6, h7, h8, h9]

/-! Evaluation lemmas for the concrete inputs.  The list-shaped
components reduce structurally (`rfl`); the rational arithmetic is
settled by `norm_num`. -/

theorem todayBar_rep18 (a b c : DailyBar) :
    todayBar (List.replicate 18 a ++ [b, c]) = c := rfl

theorem prevBar_rep18 (a b c : DailyBar) :
    prevBar (List.replicate 18 a ++ [b, c]) = b := rfl

theorem avg5_rep18 (a b c : DailyBar) :
    avg_volume_5d (List.replicate 18 a ++ [b, c])
      = mean [a.volume, a.volume, a.volume, a.volume, b.volume] := rfl

theorem last5_rep18 (a b c : DailyBar) :
    last5_volumes (List.replicate 18 a ++ [b, c])
      = [a.volume, a.volume, a.volume, b.volume, c.volume] := rfl

theorem last20_rep18 (a b c : DailyBar) :
    last20 (closes (List.replicate 18 a ++ [b, c]))
      = List.replicate 18 a.close ++ [b.close, c.close] := rfl

theorem stage1_rep18 (a b c : DailyBar) :
    stage1_fail (List.replicate 18 a ++ [b, c]) = false := rfl

theorem todayBar_rep20 (a : DailyBar) : todayBar (List.replicate 20 a) = a := rfl

theorem prevBar_rep20 (a : DailyBar) : prevBar (List.replicate 20 a) = a := rfl

theorem mean5 (x₁ x₂ x₃ x₄ x₅ : ℚ) :
    mean [x₁, x₂, x₃, x₄, x₅] = (x₁ + x₂ + x₃ + x₄ + x₅) / 5 := by
  simp [mean]; ring

theorem popVar5 (x₁ x₂ x₃ x₄ x₅ : ℚ) :
    popVar [x₁, x₂, x₃, x₄, x₅]
      = ((x₁ - mean [x₁, x₂, x₃, x₄, x₅]) ^ 2 + (x₂ - mean [x₁, x₂, x₃, x₄, x₅]) ^ 2
          + (x₃ - mean [x₁, x₂, x₃, x₄, x₅]) ^ 2 + (x₄ - mean [x₁, x₂, x₃, x₄, x₅]) ^ 2
          + (x₅ - mean [x₁, x₂, x₃, x₄, x₅]) ^ 2) / 5 := by
  simp only [popVar, List.map_cons, List.map_nil]
  rw [mean5]

theorem mean_rep18 (x y z : ℚ) :
    mean (List.replicate 18 x ++ [y, z]) = (18 * x + y + z) / 20 := by
  simp [mean, List.sum_append, List.sum_replicate, nsmul_eq_mul]
  ring

theorem popVar_rep18 (x y z : ℚ) :
    popVar (List.replicate 18 x ++ [y, z])
      = (18 * (x - mean (List.replicate 18 x ++ [y, z])) ^ 2
          + (y - mean (List.replicate 18 x ++ [y, z])) ^ 2
          + (z - mean (List.replicate 18 x ++ [y, z])) ^ 2) / 20 := by
  simp only [popVar, List.map_append, List.map_replicate, List.map_cons, List.map_nil]
  rw [mean_rep18]

theorem vOk_stage2 : stage2_fail vOk = false := by
  norm_num [stage2_fail, vOk, get_float_share_and_mv, truthy]

theorem vOk_stage6 : stage6_fail vOk = false := by
  norm_num [stage6_fail, est_float_mv, get_float_share_and_mv, vOk]

theorem bars8_stage3 : stage3_fail bars8 = false := by
  norm_num [stage3_fail, pct_change, bars8, todayBar_rep18, prevBar_rep18]

theorem bars8_stage4 : stage4_fail bars8 = false := by
  norm_num [stage4_fail, volume_ratio, bars8, avg5_rep18, todayBar_rep18, mean5]

theorem bars8_stage5 : stage5_fail bars8 vOk = false := by
  norm_num [stage5_fail, est_turnover_rate, get_float_share_and_mv, vOk, bars8,
    todayBar_rep18]

theorem bars8_stage7 : stage7_fail bars8 = false := by
  norm_num [stage7_fail, cvFail, bars8, last5_rep18, mean5, popVar5]

theorem bars8_stage8 : stage8_fail bars8 = true := by
  norm_num [stage8_fail, bollingerFail, bars8, last20_rep18, mean_rep18, popVar_rep18,
    todayBar_rep18]

/-- Witness for C2: `bars8` passes stages 1-7 and fails stage 8, and the
verdict is `布林带压力` (`bandResistance`) even though the intraday fetch
would raise — the later stage is never touched. -/
theorem evaluator_short_circuit_witness :
    evalSymbol 0 ⟨.ok bars8, vOk, .error ()⟩ = .rejected .bandResistance :=
  (evaluator_short_circuit 0 bars8 vOk (.error ())).2.2.2.2.2.2.2.1
    (by rw [bars8]; exact stage1_rep18 _ _ _) vOk_stage2 bars8_stage3 bars8_stage4
    bars8_stage5 vOk_stage6 bars8_stage7 bars8_stage8

/-- Counterexample for C3: `filter_stocks` returns only the `selected`
list (src/main.py line 219).  Two runs with identical return values have
different rejection accounting — a one-symbol run whose symbol is
rejected for insufficient history, and the empty run — so neither the
rejection counts nor the processed total can be part of the value
`filter_stocks` returns. -/
theorem run_result_shape_cex :
    filter_stocks 0 providerEmpty ["A"] = filter_stocks 0 providerEmpty []
  ∧ (filter_stocks_full 0 providerEmpty ["A"]).totalProcessed
      ≠ (filter_stocks_full 0 providerEmpty []).totalProcessed
  ∧ (filter_stocks_full 0 providerEmpty ["A"]).rejected
      ≠ (filter_stocks_full 0 providerEmpty []).rejected := by
  decide

/-- C3 (amended): `filter_stocks` returns exactly the selected symbols,
in input order of the passing symbols — the rejection counts and the
processed total are accumulated internally (`filter_stocks_full`) and
printed, but are not part of the return value. -/
theorem filter_stocks_returns_selected (ip : ℚ) (p : String → SymbolData)
    (syms : List String) :
    filter_stocks ip p syms = (filter_stocks_full ip p syms).selected
  ∧ filter_stocks ip p syms
      = syms.filter (fun s => decide (evalSymbol ip (p s) = Verdict.passed))
  ∧ (filter_stocks_full ip p syms).totalProcessed = syms.length := by
  refine ⟨rfl, ?_, ?_⟩
  · have h := run_selected ip p syms ⟨[], Rejected.init, 0⟩
    simpa [filter_stocks, filter_stocks_full] using h
  · have h := (run_counts ip p syms ⟨[], Rejected.init, 0⟩).1
    simpa [filter_stocks_full] using h

theorem barsC4_stage1 : stage1_fail barsC4 = false := rfl

theorem vNeg_stage2 : stage2_fail vNeg = false := by
  norm_num [stage2_fail, vNeg, get_float_share_and_mv, truthy]

theorem barsC4_stage3 : stage3_fail barsC4 = true := by
  norm_num [stage3_fail, pct_change, barsC4, todayBar_rep20, prevBar_rep20]

/-- Counterexample for C4: a valuation fetch that resolves to *negative*
values passes stage 2, because the code's check `not float_share or not
total_mv` tests Python truthiness (non-None and nonzero), not
positivity.  With `vNeg` both fields resolve to negative numbers, stage
2 does not fire, and the symbol proceeds to stage 3. -/
theorem stage2_positivity_cex :
    stage2_fail vNeg = false
  ∧ (get_float_share_and_mv vNeg).1 = some (-70000000)
  ∧ (get_float_share_and_mv vNeg).2 = some (-100000000)
  ∧ evalSymbol 0 ⟨.ok barsC4, vNeg, .ok []⟩ = .rejected .priceMoveOutOfRange := by
  refine ⟨vNeg_stage2, ?_, ?_, ?_⟩
  · norm_num [get_float_share_and_mv, vNeg]
  · norm_num [get_float_share_and_mv, vNeg]
  · simp [evalSymbol, barsC4_stage1, vNeg_stage2, barsC4_stage3]

/-- C4 (amended): stage 2 passes iff both returned fields are non-null
and nonzero — equivalently, iff the indicator fetch succeeds non-empty
with a nonzero `total_mv` and the spot price resolves to a positive
number; the sign of the valuation itself is not checked.  An unresolved
field is rejected with `无流通市值数据` (`noValuationData`), never
silently treated as the value 0. -/
theorem stage2_truthiness (ip : ℚ) (bars : List DailyBar) (v : ValuationFetch)
    (intr : Except Unit (List ℚ)) :
    (stage2_fail v = false ↔
      (v.raises = false ∧ v.indicator_empty = false
        ∧ (∃ x, v.total_mv_col = some x ∧ x ≠ 0)
        ∧ (∃ pr, v.spot_price = some pr ∧ 0 < pr)))
  ∧ (stage1_fail bars = false → stage2_fail v = true →
        evalSymbol ip ⟨.ok bars, v, intr⟩ = .rejected .noValuationData)
  ∧ ((v.total_mv_col = none ∨ v.spot_price = none) → stage2_fail v = true) := by
  refine ⟨?_, ?_, ?_⟩
  · obtain ⟨r, e, t, s⟩ := v
    cases r
    · cases e
      · cases t with
        | none => simp [stage2_fail, get_float_share_and_mv, truthy]
        | some x =>
          cases s with
          | none => simp [stage2_fail, get_float_share_and_mv, truthy]
          | some pr =>
            by_cases hx : x = 0
            · subst hx; simp [stage2_fail, get_float_share_and_mv, truthy]
            · by_cases hp : 0 < pr
              · have hpne : pr ≠ 0 := ne_of_gt hp
                have hmv : x * 100000000 ≠ 0 := mul_ne_zero hx (by norm_num)
                have hfs : x * 100000000 / pr * (7 / 10) ≠ 0 :=
                  mul_ne_zero (div_ne_zero hmv hpne) (by norm_num)
                simp [stage2_fail, get_float_share_and_mv, truthy, hx, hp, hpne, hmv, hfs]
              · simp [stage2_fail, get_float_share_and_mv, truthy, hx, hp]
      · simp [stage2_fail, get_float_share_and_mv, truthy]
    · simp [stage2_fail, get_float_share_and_mv, truthy]
  · intro h1 h2
    simp [evalSymbol, h1, h2]
  · intro h
    obtain ⟨r, e, t, s⟩ := v
    rcases h with h | h
    · subst h
      cases r <;> cases e <;> cases s <;> simp [stage2_fail, get_float_share_and_mv, truthy]
    · subst h
      cases r <;> cases e <;> cases t <;> simp [stage2_fail, get_float_share_and_mv, truthy]

/-- Witness for C4's amended theorem: both fields unresolved ⇒
`noValuationData`. -/
theorem stage2_truthiness_witness :
    evalSymbol 0 ⟨.ok barsC4, vNone, .ok []⟩ = .rejected .noValuationData :=
  (stage2_truthiness 0 barsC4 vNone (.ok [])).2.1 barsC4_stage1 (by decide)

theorem barsPct3_stage1 : stage1_fail barsPct3 = false := by
  rw [barsPct3]; exact stage1_rep18 _ _ _

theorem barsPct3_pct : pct_change barsPct3 = 3 := by
  norm_num [pct_change, barsPct3, todayBar_rep18, prevBar_rep18]

/-- C5: stage 3's bounds are inclusive — under the stage-1 and stage-2
hypotheses, a daily price move of exactly 3.00% or exactly 5.00% is not
rejected as `涨幅不符` (`priceMoveOutOfRange`), while any move strictly
below 3% or strictly above 5% is rejected with exactly that reason. -/
theorem stage3_inclusive_bounds (ip : ℚ) (bars : List DailyBar) (v : ValuationFetch)
    (intr : Except Unit (List ℚ))
    (h1 : stage1_fail bars = false) (h2 : stage2_fail v = false) :
    ((pct_change bars = 3 ∨ pct_change bars = 5) →
        evalSymbol ip ⟨.ok bars, v, intr⟩ ≠ .rejected .priceMoveOutOfRange)
  ∧ ((pct_change bars < 3 ∨ 5 < pct_change bars) →
        evalSymbol ip ⟨.ok bars, v, intr⟩ = .rejected .priceMoveOutOfRange) := by
  constructor
  · intro h
    have h3 : stage3_fail bars = false := by
      rcases h with h | h <;> simp [stage3_fail, h] <;> norm_num
    cases hb4 : stage4_fail bars <;> cases hb5 : stage5_fail bars v <;>
      cases hb6 : stage6_fail v <;> cases hb7 : stage7_fail bars <;>
      cases hb8 : stage8_fail bars <;> cases intr <;>
      simp [evalSymbol, h1, h2, h3, hb4, hb5, hb6, hb7, hb8] <;>
      split <;> simp
  · intro h
    have hno : ¬(3 ≤ pct_change bars ∧ pct_change bars ≤ 5) := by
      rcases h with h | h
      · rintro ⟨a, b⟩; linarith
      · rintro ⟨a, b⟩; linarith
    have h3 : stage3_fail bars = true := by simp [stage3_fail, hno]
    simp [evalSymbol, h1, h2, h3]

/-- Witness for C5: a price move of exactly 3.00% is not rejected at
stage 3. -/
theorem stage3_inclusive_bounds_witness :
    evalSymbol 0 ⟨.ok barsPct3, vOk, .ok []⟩ ≠ .rejected .priceMoveOutOfRange :=
  (stage3_inclusive_bounds 0 barsPct3 vOk (.ok []) barsPct3_stage1 vOk_stage2).1
    (Or.inl barsPct3_pct)

theorem barsZeroVol_stage1 : stage1_fail barsZeroVol = false := by
  rw [barsZeroVol]; exact stage1_rep18 _ _ _

theorem barsZeroVol_stage3 : stage3_fail barsZeroVol = false := by
  norm_num [stage3_fail, pct_change, barsZeroVol, todayBar_rep18, prevBar_rep18]

theorem barsZeroVol_avg : avg_volume_5d barsZeroVol = 0 := by
  norm_num [barsZeroVol, avg5_rep18, mean5]

/-- C6: the two division-based indicators are total under a zero
divisor — a zero five-prior-session mean volume makes `volume_ratio`
return 0 (so, past stages 1-3, the symbol is rejected with `量比不足`
(`volumeRatioTooLow`), not an error), and a zero trailing-five mean
makes the coefficient of variation return 0. -/
theorem divisor_zero_guards (ip : ℚ) (bars : List DailyBar) (vols : List ℚ)
    (v : ValuationFetch) (intr : Except Unit (List ℚ)) :
    (avg_volume_5d bars = 0 → volume_ratio bars = 0)
  ∧ (mean vols = 0 → coefficientOfVariation vols = 0)
  ∧ (stage1_fail bars = false → stage2_fail v = false → stage3_fail bars = false →
      avg_volume_5d bars = 0 →
        evalSymbol ip ⟨.ok bars, v, intr⟩ = .rejected .volumeRatioTooLow) := by
  refine ⟨?_, ?_, ?_⟩
  · intro h; simp [volume_ratio, h]
  · intro h; simp [coefficientOfVariation, h]
  · intro h1 h2 h3 h
    have hr : volume_ratio bars = 0 := by simp [volume_ratio, h]
    have h4 : stage4_fail bars = true := by norm_num [stage4_fail, hr]
    simp [evalSymbol, h1, h2, h3, h4]

/-- Witness for C6: all-zero volumes give a zero divisor, and the symbol
is rejected with `量比不足`, not an error; the coefficient of variation
of five zero volumes is 0. -/
theorem divisor_zero_guards_witness :
    evalSymbol 0 ⟨.ok barsZeroVol, vOk, .ok []⟩ = .rejected .volumeRatioTooLow
  ∧ coefficientOfVariation [0, 0, 0, 0, 0] = 0 :=
  ⟨(divisor_zero_guards 0 barsZeroVol [0, 0, 0, 0, 0] vOk (.ok [])).2.2
      barsZeroVol_stage1 vOk_stage2 barsZeroVol_stage3 barsZeroVol_avg,
   (divisor_zero_guards 0 barsZeroVol [0, 0, 0, 0, 0] vOk (.ok [])).2.1
      (by norm_num [mean5])⟩

theorem bars20_stage1 : stage1_fail bars20 = false := by
  rw [bars20]; exact stage1_rep18 _ _ _

theorem bars20_stage3 : stage3_fail bars20 = false := by
  norm_num [stage3_fail, pct_change, bars20, todayBar_rep18, prevBar_rep18]

theorem bars20_stage4 : stage4_fail bars20 = false := by
  norm_num [stage4_fail, volume_ratio, bars20, avg5_rep18, todayBar_rep18, mean5]

theorem bars20_stage5 : stage5_fail bars20 vOk = false := by
  norm_num [stage5_fail, est_turnover_rate, get_float_share_and_mv, vOk, bars20,
    todayBar_rep18]

theorem bars20_stage7 : stage7_fail bars20 = false := by
  norm_num [stage7_fail, cvFail, bars20, last5_rep18, mean5, popVar5]

theorem bars20_stage8 : stage8_fail bars20 = false := by
  norm_num [stage8_fail, bollingerFail, bars20, last20_rep18, mean_rep18, popVar_rep18,
    todayBar_rep18]

/-- C7: under the stage-1..8 hypotheses, the verdict is `尾盘表现不佳`
(`weakIntraday`) exactly when the retained intraday tick list is empty,
or today's close is below the mean intraday price, or the intraday
session return is below the benchmark return plus one — and in
particular an empty intraday sequence is rejected with `weakIntraday`,
not an error. -/
theorem stage9_weak_intraday (ip : ℚ) (bars : List DailyBar) (v : ValuationFetch)
    (prices : List ℚ)
    (h1 : stage1_fail bars = false) (h2 : stage2_fail v = false)
    (h3 : stage3_fail bars = false) (h4 : stage4_fail bars = false)
    (h5 : stage5_fail bars v = false) (h6 : stage6_fail v = false)
    (h7 : stage7_fail bars = false) (h8 : stage8_fail bars = false) :
    (evalSymbol ip ⟨.ok bars, v, .ok prices⟩ = .rejected .weakIntraday ↔
      (prices = [] ∨ (todayBar bars).close < mean prices ∨ stock_pct prices < ip + 1))
  ∧ (prices = [] → evalSymbol ip ⟨.ok bars, v, .ok prices⟩ = .rejected .weakIntraday) := by
  have hmain : evalSymbol ip ⟨.ok bars, v, .ok prices⟩
      = if stage9_fail ip bars prices then .rejected .weakIntraday else .passed := by
    simp [evalSymbol, h1, h2, h3, h4, h5, h6, h7, h8]
  have hiff : stage9_fail ip bars prices = true ↔
      (prices = [] ∨ (todayBar bars).close < mean prices ∨ stock_pct prices < ip + 1) := by
    simp [stage9_fail, List.isEmpty_iff]
  constructor
  · rw [hmain]
    cases h9 : stage9_fail ip bars prices with
    | true => simpa [h9] using hiff.mp h9
    | false =>
      have hnot : ¬(prices = [] ∨ (todayBar bars).close < mean prices
          ∨ stock_pct prices < ip + 1) := fun hx => by
        have hcon := hiff.mpr hx
        rw [h9] at hcon
        exact Bool.false_ne_true hcon
      refine iff_of_false ?_ hnot
      simp [h9]
  · intro hp
    rw [hmain, if_pos (hiff.mpr (Or.inl hp))]

/-- Witness for C7: a symbol passing stages 1-8 with an empty intraday
tick list is rejected with `weakIntraday`. -/
theorem stage9_weak_intraday_witness :
    evalSymbol 0 ⟨.ok bars20, vOk, .ok []⟩ = .rejected .weakIntraday :=
  (stage9_weak_intraday 0 bars20 vOk [] bars20_stage1 vOk_stage2 bars20_stage3
    bars20_stage4 bars20_stage5 vOk_stage6 bars20_stage7 bars20_stage8).2 rfl

/-- C8: `get_index_data` is total over the fetch outcome — on a
successful fetch of at least two sessions with a nonzero previous close
it returns `(latest_close - previous_close) / previous_close * 100`, and
on any provider failure it returns the neutral fallback 0 instead of
propagating the failure. -/
theorem benchmark_return_total (cs : List ℚ) (h2 : 2 ≤ cs.length)
    (hp : cs.getD (cs.length - 2) 0 ≠ 0) :
    get_index_data (.ok cs)
      = some ((cs.getD (cs.length - 1) 0 - cs.getD (cs.length - 2) 0)
          / cs.getD (cs.length - 2) 0 * 100)
  ∧ (∀ e : Unit, get_index_data (.error e) = some 0) := by
  constructor
  · have h0 : ¬ cs.length = 0 := by omega
    have h1 : ¬ cs.length = 1 := by omega
    rw [List.getD_eq_getElem?_getD] at hp
    simp [get_index_data, h0, h1, hp, List.getD_eq_getElem?_getD]
  · intro e; rfl

/-- Witness for C8: closes 100 then 103 give a 3% benchmark return; a
failed fetch gives 0. -/
theorem benchmark_return_total_witness :
    get_index_data (.ok [100, 103]) = some 3 ∧ get_index_data (.error ()) = some 0 := by
  have h := benchmark_return_total [100, 103] (by norm_num) (by norm_num [List.getD])
  refine ⟨?_, h.2 ()⟩
  have e1 : (([100, 103] : List ℚ).getD (([100, 103] : List ℚ).length - 1) 0) = 103 := rfl
  have e0 : (([100, 103] : List ℚ).getD (([100, 103] : List ℚ).length - 2) 0) = 100 := rfl
  rw [h.1, e1, e0]
  norm_num

/-- C9: per-symbol failures are isolated — a raising daily fetch is
counted as `其他错误` (`evaluationError`), a raising intraday fetch
past stages 1-8 likewise, the run over `xs ++ ys` is exactly the
composition of the runs over `xs` and over `ys` (so no symbol's failure
aborts the remaining symbols), and a symbol whose evaluation is not
`passed` is never selected. -/
theorem per_symbol_error_isolation :
    (∀ (ip : ℚ) (v : ValuationFetch) (intr : Except Unit (List ℚ)),
        evalSymbol ip ⟨.error (), v, intr⟩ = .rejected .evaluationError)
  ∧ (∀ (ip : ℚ) (bars : List DailyBar) (v : ValuationFetch),
        stage1_fail bars = false → stage2_fail v = false → stage3_fail bars = false →
        stage4_fail bars = false → stage5_fail bars v = false → stage6_fail v = false →
        stage7_fail bars = false → stage8_fail bars = false →
        evalSymbol ip ⟨.ok bars, v, .error ()⟩ = .rejected .evaluationError)
  ∧ (∀ (ip : ℚ) (p : String → SymbolData) (xs ys : List String),
        (filter_stocks_full ip p (xs ++ ys)).selected
            = (filter_stocks_full ip p xs).selected ++ (filter_stocks_full ip p ys).selected
        ∧ (filter_stocks_full ip p (xs ++ ys)).rejected
            = ((filter_stocks_full ip p xs).rejected).add ((filter_stocks_full ip p ys).rejected)
        ∧ (filter_stocks_full ip p (xs ++ ys)).totalProcessed
            = (filter_stocks_full ip p xs).totalProcessed
              + (filter_stocks_full ip p ys).totalProcessed)
  ∧ (∀ (ip : ℚ) (p : String → SymbolData) (syms : List String) (s : String),
        evalSymbol ip (p s) ≠ .passed → s ∉ (filter_stocks_full ip p syms).selected) := by
  refine ⟨?_, ?_, ?_, ?_⟩
  · intro ip v intr; rfl
  · intro ip bars v h1 h2 h3 h4 h5 h6 h7 h8
    simp [evalSymbol, h1, h2, h3, h4, h5, h6, h7, h8]
  · intro ip p xs ys
    have happ : filter_stocks_full ip p (xs ++ ys)
        = List.foldl (runStep ip p) (filter_stocks_full ip p xs) ys := by
      simp [filter_stocks_full, List.foldl_append]
    have hy : (filter_stocks_full ip p ys).selected
        = ys.filter (fun s => decide (evalSymbol ip (p s) = Verdict.passed)) := by
      simpa [filter_stocks_full] using run_selected ip p ys ⟨[], Rejected.init, 0⟩
    have hy2 : (filter_stocks_full ip p ys).totalProcessed = ys.length := by
      simpa [filter_stocks_full] using (run_counts ip p ys ⟨[], Rejected.init, 0⟩).1
    refine ⟨?_, ?_, ?_⟩
    · rw [happ, run_selected ip p ys (filter_stocks_full ip p xs), hy]
    · rw [happ, run_rejected ip p ys (filter_stocks_full ip p xs)]
    · rw [happ, (run_counts ip p ys (filter_stocks_full ip p xs)).1, hy2]
  · intro ip p syms s hne hmem
    have hsel : (filter_stocks_full ip p syms).selected
        = syms.filter (fun t => decide (evalSymbol ip (p t) = Verdict.passed)) := by
      simpa [filter_stocks_full] using run_selected ip p syms ⟨[], Rejected.init, 0⟩
    rw [hsel] at hmem
    have hdec := List.of_mem_filter hmem
    simp only [decide_eq_true_eq] at hdec
    exact hne hdec

/-- Witness for C9: a raising intraday fetch on a symbol that passed
stages 1-8 is absorbed into `evaluationError`. -/
theorem per_symbol_error_isolation_witness :
    evalSymbol 0 ⟨.ok bars20, vOk, .error ()⟩ = .rejected .evaluationError :=
  per_symbol_error_isolation.2.1 0 bars20 vOk bars20_stage1 vOk_stage2 bars20_stage3
    bars20_stage4 bars20_stage5 vOk_stage6 bars20_stage7 bars20_stage8

/-! Fidelity bridges: the exact ℚ decision procedures `cvFail` and
`bollingerFail` decide precisely the real-valued comparisons written in
the source. -/

theorem popVar_nonneg (l : List ℚ) : 0 ≤ popVar l := by
  rw [popVar, mean]
  apply div_nonneg
  · apply List.sum_nonneg
    intro x hx
    simp only [List.mem_map] at hx
    obtain ⟨y, _, rfl⟩ := hx
    positivity
  · positivity

theorem cvFail_iff (vols : List ℚ) :
    cvFail vols = true ↔ (1 / 2 : ℝ) < coefficientOfVariation vols := by
  rw [cvFail, coefficientOfVariation, decide_eq_true_eq]
  rcases lt_trichotomy (mean vols) 0 with hm | hm | hm
  · have hne : mean vols ≠ 0 := ne_of_lt hm
    rw [if_pos hne]
    have hmR : ((mean vols : ℚ) : ℝ) < 0 := by exact_mod_cast hm
    have hle : Real.sqrt ((popVar vols : ℚ) : ℝ) / ((mean vols : ℚ) : ℝ) ≤ 0 :=
      div_nonpos_of_nonneg_of_nonpos (Real.sqrt_nonneg _) hmR.le
    constructor
    · rintro ⟨h, _⟩; linarith
    · intro h; linarith
  · rw [hm]
    simp
  · have hne : mean vols ≠ 0 := ne_of_gt hm
    rw [if_pos hne]
    have hmR : (0 : ℝ) < ((mean vols : ℚ) : ℝ) := by exact_mod_cast hm
    rw [lt_div_iff hmR, Real.lt_sqrt (by positivity)]
    constructor
    · rintro ⟨_, h⟩
      have hR : ((mean vols : ℚ) : ℝ) ^ 2 < 4 * ((popVar vols : ℚ) : ℝ) := by
        exact_mod_cast h
      nlinarith [hR]
    · intro h
      refine ⟨hm, ?_⟩
      have hR : ((mean vols : ℚ) : ℝ) ^ 2 < 4 * ((popVar vols : ℚ) : ℝ) := by
        nlinarith [h]
      exact_mod_cast hR

theorem sqrt_comparison (m v c : ℚ) (hc : 0 < c) :
    (0 < 103 * c - 100 * m ∧ 40000 * v < (103 * c - 100 * m) ^ 2) ↔
      ((m : ℝ) + 2 * Real.sqrt ((v : ℚ) : ℝ) - (c : ℝ)) / (c : ℝ) * 100 < 3 := by
  have hcR : (0 : ℝ) < (c : ℝ) := by exact_mod_cast hc
  have hcast : ((103 * c - 100 * m : ℚ) : ℝ) = 103 * (c : ℝ) - 100 * (m : ℝ) := by
    push_cast; ring
  have hs0 : 0 ≤ Real.sqrt ((v : ℚ) : ℝ) := Real.sqrt_nonneg _
  constructor
  · rintro ⟨hr, hlt⟩
    have hrR : (0 : ℝ) < 103 * (c : ℝ) - 100 * (m : ℝ) := by
      rw [← hcast]; exact_mod_cast hr
    have hltR : 40000 * ((v : ℚ) : ℝ) < (103 * (c : ℝ) - 100 * (m : ℝ)) ^ 2 := by
      rw [← hcast]; exact_mod_cast hlt
    have hsr : Real.sqrt ((v : ℚ) : ℝ) < (103 * (c : ℝ) - 100 * (m : ℝ)) / 200 := by
      rw [Real.sqrt_lt' (div_pos hrR (by norm_num))]
      nlinarith [hltR]
    rw [div_mul_eq_mul_div, div_lt_iff hcR]
    nlinarith [hsr]
  · intro h
    rw [div_mul_eq_mul_div, div_lt_iff hcR] at h
    have h200 : 200 * Real.sqrt ((v : ℚ) : ℝ) < 103 * (c : ℝ) - 100 * (m : ℝ) := by
      nlinarith [h]
    have hrR : (0 : ℝ) < 103 * (c : ℝ) - 100 * (m : ℝ) :=
      lt_of_le_of_lt (by positivity) h200
    have hr : (0 : ℚ) < 103 * c - 100 * m := by
      rw [← hcast] at hrR; exact_mod_cast hrR
    have hsq : ((v : ℚ) : ℝ) < ((103 * (c : ℝ) - 100 * (m : ℝ)) / 200) ^ 2 := by
      rw [← Real.sqrt_lt' (div_pos hrR (by norm_num))]
      linarith
    have hlt : 40000 * v < (103 * c - 100 * m) ^ 2 := by
      have h2 : 40000 * ((v : ℚ) : ℝ) < (103 * (c : ℝ) - 100 * (m : ℝ)) ^ 2 := by
        nlinarith [hsq]
      rw [← hcast] at h2
      exact_mod_cast h2
    exact ⟨hr, hlt⟩

theorem bollingerFail_iff (bars : List DailyBar) (hc : 0 < (todayBar bars).close) :
    stage8_fail bars = true ↔
      ((mean (last20 (closes bars)) : ℝ)
          + 2 * Real.sqrt ((popVar (last20 (closes bars)) : ℚ) : ℝ)
          - ((todayBar bars).close : ℝ))
        / ((todayBar bars).close : ℝ) * 100 < 3 := by
  have hcne : ¬ (todayBar bars).close = 0 := ne_of_gt hc
  rw [stage8_fail]
  simp only [bollingerFail]
  rw [if_neg hcne, if_pos hc, decide_eq_true_eq]
  exact sqrt_comparison (mean (last20 (closes bars))) (popVar (last20 (closes bars)))
    (todayBar bars).close hc
